import Mathlib

/-!
Shallow embedding of the ImApp library (HunterBelanger/ImApp) for checking
the natural-language specification against the code.

The embedded code lives in `include/ImApp/imapp.hpp` and `src/imapp.cpp`:
the `Pixel` and `Image` value types with their GPU-texture lifecycle, and
the `App`/`Layer` stack with its render loop.  Machine integers of type
`std::uint32_t` are modelled as `Nat` with explicit reduction modulo
`2 ^ 32` exactly where the C++ arithmetic wraps; the OpenGL calls and the
image codec are modelled as explicit state / environment parameters.
-/

namespace ImApp

/-- The modulus `2 ^ 32` of `std::uint32_t` arithmetic. -/
def U32 : Nat := 4294967296

/-- The `Pixel` class: four 8-bit channels (r, g, b, a), from `imapp.hpp`.
Channel values are `Nat`s in `[0, 255]`; no channel arithmetic occurs in
the embedded code, so no wrapping is needed. -/
structure Pixel where
  r : Nat
  g : Nat
  b : Nat
  a : Nat
deriving DecidableEq, Repr

/-- The default constructor `Pixel()`, which sets every channel to 255
(opaque white): `Pixel() : r_(255), g_(255), b_(255), a_(255) {}`. -/
def Pixel.white : Pixel := ⟨255, 255, 255, 255⟩

/-- The `Image` class: logical dimensions, row-major pixel buffer, and the
optional OpenGL texture id (`std::optional<std::uint32_t> ogl_texture_id_`). -/
structure Image where
  height : Nat
  width : Nat
  image : List Pixel
  ogl_texture_id : Option Nat
deriving DecidableEq, Repr

/-- The constructor `Image(std::uint32_t height, std::uint32_t width)`:
stores the dimensions and builds the buffer as
`image_(height_ * width_, Pixel())` — a fill of `height_ * width_` copies
of `Pixel()`.  The product is `std::uint32_t` arithmetic, hence taken
modulo `2 ^ 32`.  `ogl_texture_id_` starts as `std::nullopt`. -/
def Image.ofDims (height width : Nat) : Image :=
  { height := height
    width := width
    image := List.replicate (height * width % U32) Pixel.white
    ogl_texture_id := none }

/-- Embeds `Image::size()`: `return width_ * height_;` computed in
`std::uint32_t` arithmetic. -/
def Image.size (img : Image) : Nat :=
  img.width * img.height % U32

/-- Embeds `Image::at(h, w)`: bounds-checked access.  Throws
`std::out_of_range` when `h >= height_`, else when `w >= width_`;
otherwise computes `std::size_t i = w + (h * width_)` — both operands are
`std::uint32_t`, so `i` is the wrapped value `(w + h * width_) % 2 ^ 32` —
and returns `image_[i]`.  The unchecked `std::vector::operator[]` is
modelled with a default for an out-of-buffer index. -/
def Image.at (img : Image) (h w : Nat) : Except String Pixel :=
  if h ≥ img.height then .error "ImApp::Image::at: h must be < height."
  else if w ≥ img.width then .error "ImApp::Image::at: w must be < width."
  else .ok (img.image.getD ((w + h * img.width) % U32) Pixel.white)

/-- Embeds `std::vector<Pixel>::resize(n)`: keeps the first `min n size`
existing elements and value-initialises any new tail elements with `Pixel()`
(the class's default constructor, which sets opaque white). -/
def vectorResize (l : List Pixel) (n : Nat) : List Pixel :=
  l.take n ++ List.replicate (n - l.length) Pixel.white

/-- Embeds `Image::resize(height, width)`: assigns the new dimensions, then
`image_.resize(height_ * width_)` with the product again in
`std::uint32_t` arithmetic. -/
def Image.resize (img : Image) (height width : Nat) : Image :=
  { img with
    height := height
    width := width
    image := vectorResize img.image (height * width % U32) }

/-- Assignment `img[i] = p` through the unchecked `Image::operator[]`:
writes the pixel at linear index `i` (no effect when `i` is out of the
buffer, standing in for the undefined behaviour of
`std::vector::operator[]`). -/
def Image.setPixel (img : Image) (i : Nat) (p : Pixel) : Image :=
  { img with image := img.image.set i p }

/-- Environment consumed by `Image::from_file`: the filesystem existence
check (`std::filesystem::exists`) and the stb_image codec (`stbi_load`,
which on success yields the image width, the image height and the pixel
data forced to 4 channels, and on failure leaves a diagnostic retrievable
through `stbi_failure_reason`). -/
structure DecodeEnv where
  pathExists : String → Bool
  stbiLoad : String → Option (Nat × Nat × List Pixel)
  stbiFailureReason : String

/-- Embeds `Image::from_file(fname)` from `imapp.cpp`: first checks
`std::filesystem::exists(fname)` and throws the not-found
`std::runtime_error` when it is false; only then calls `stbi_load`, and on
a `NULL` result throws the decode `std::runtime_error` carrying
`stbi_failure_reason()`.  On success it builds `Image img(height, width)`
and copies `img.size()` pixels from the decoded data (`img[i] = pdata[i]`
for `i` in `[0, img.size())`). -/
def Image.from_file (env : DecodeEnv) (fname : String) : Except String Image :=
  if env.pathExists fname = false then
    .error ("ImApp::Image::from_file: File with name \"" ++ fname ++
      "\" does not exist.\n")
  else
    match env.stbiLoad fname with
    | none =>
        .error ("ImApp::Image::from_file: stbi_load failure.\nstbi_failure_reason: "
          ++ env.stbiFailureReason ++ "\n")
    | some (imgWidth, imgHeight, data) =>
        let img := Image.ofDims imgHeight imgWidth
        .ok { img with image := (List.range img.size).map fun i => data.getD i Pixel.white }

/-- Abstract OpenGL texture-object state threaded through `send_to_gpu`
and `delete_from_gpu`: the id the next `glGenTextures` will hand out, the
list of live texture objects, and a log of the `glTexImage2D` full-buffer
uploads performed so far (texture id paired with the uploaded pixel
buffer, most recent first). -/
structure GLState where
  nextId : Nat
  textures : List Nat
  uploads : List (Nat × List Pixel)
deriving DecidableEq, Repr

/-- Embeds `Image::send_to_gpu()` from `imapp.cpp`: when `ogl_texture_id_`
already holds a value, the existing texture is bound and the full pixel
buffer re-uploaded with `glTexImage2D`; otherwise `glGenTextures`
allocates a fresh texture object, linear min/mag filtering is configured,
the full buffer is uploaded, and the new id is saved into
`ogl_texture_id_`. -/
def Image.send_to_gpu (img : Image) (gl : GLState) : Image × GLState :=
  match img.ogl_texture_id with
  | some t =>
      (img, { gl with uploads := (t, img.image) :: gl.uploads })
  | none =>
      let texture_id := gl.nextId
      ({ img with ogl_texture_id := some texture_id },
        { gl with
          nextId := gl.nextId + 1
          textures := texture_id :: gl.textures
          uploads := (texture_id, img.image) :: gl.uploads })

/-- Embeds `Image::delete_from_gpu()`: when a texture id is present it is
deleted with `glDeleteTextures` and the stored id reset to
`std::nullopt`; otherwise nothing happens. -/
def Image.delete_from_gpu (img : Image) (gl : GLState) : Image × GLState :=
  match img.ogl_texture_id with
  | some t =>
      ({ img with ogl_texture_id := none },
        { gl with textures := gl.textures.erase t })
  | none => (img, gl)

/-- Embeds the destructor `Image::~Image()`, whose whole body is
`this->delete_from_gpu();`; the object then ceases to exist, so only the
final GL state remains observable. -/
def Image.destroy (img : Image) (gl : GLState) : GLState :=
  (img.delete_from_gpu gl).2

/-- Observable events of the layer-stack embedding: the lifecycle hooks a
layer receives (`on_push` recorded together with the value of the layer's
`app()` back-reference at the instant the hook runs), per-frame renders,
`on_kill`, and the loop's / destructor's interactions with the GUI and
windowing backends. -/
inductive Event where
  | onPush (layerId : Nat) (appSeen : Option Nat)
  | render (layerId : Nat)
  | onKill (layerId : Nat)
  | pollEvents
  | newFrame
  | renderSubmit
  | swapBuffers
  | shutdownContexts
  | destroyWindow
deriving DecidableEq, Repr

/-- A `Layer` as stored by the `App`: an identity standing for the
concrete subclass instance, plus the `app_` back-pointer
(`nullptr` modelled as `none`), which `Layer()` initialises to `nullptr`
and only the private friend method `set_app_ptr` ever assigns. -/
structure Layer where
  id : Nat
  app : Option Nat
deriving DecidableEq, Repr

/-- The `App` with its observable state: an identity (the `this` pointer),
the owned layer stack `layers_` in push order, and the trace of observable
events so far. -/
structure AppState where
  id : Nat
  layers : List Layer
  trace : List Event
deriving DecidableEq, Repr

/-- Embeds `App::push_layer(layer)`:
`layers_.push_back(std::move(layer));` then `layers_.back()->on_push();`
— the hook runs on the appended layer and observes its current `app()`
value — and only then `layers_.back()->set_app_ptr(this);`. -/
def AppState.push_layer (a : AppState) (l : Layer) : AppState :=
  let layers1 := a.layers ++ [l]
  let back := layers1.getLastD ⟨0, none⟩
  let a1 : AppState :=
    { a with layers := layers1
             trace := a.trace ++ [Event.onPush back.id back.app] }
  { a1 with layers := a1.layers.dropLast ++ [{ back with app := some a.id }] }

/-- Embeds one iteration of the main loop in `App::run()`: poll platform
events, begin the Dear ImGui frame, run
`for (auto& layer : layers_) layer->render();` in stack order, then render
the draw data and swap buffers. -/
def AppState.frame (a : AppState) : AppState :=
  { a with
    trace := a.trace ++ [Event.pollEvents, Event.newFrame] ++
      a.layers.map (fun l => Event.render l.id) ++
      [Event.renderSubmit, Event.swapBuffers] }

/-- Embeds `App::run()` for a window whose close flag is raised after `n`
iterations of the `while (!glfwWindowShouldClose(window))` loop. -/
def AppState.run (a : AppState) : Nat → AppState
  | 0 => a
  | n + 1 => a.frame.run n

/-- Embeds the destructor `App::~App()`:
`for (auto& layer : layers_) layer->on_kill();` in stack order, and only
afterwards the ImGui/ImPlot contexts are shut down and the GLFW window
destroyed. -/
def AppState.destroy (a : AppState) : AppState :=
  { a with
    trace := a.trace ++ a.layers.map (fun l => Event.onKill l.id) ++
      [Event.shutdownContexts, Event.destroyWindow] }

end ImApp

namespace ImApp

/-- C9: A freshly constructed `Image::Image(height, width)` whose product
fits in `std::uint32_t` (the valid range of the size type) has exactly
`height * width` pixels, every one of them opaque white
(255, 255, 255, 255). -/
theorem image_ofDims_white (h w : Nat) (hv : h * w < U32) :
    (Image.ofDims h w).image.length = h * w ∧
      (Image.ofDims h w).image = List.replicate (h * w) Pixel.white := by
  constructor <;> simp [Image.ofDims, Nat.mod_eq_of_lt hv]

/-- Witness for C9 at `height = 2`, `width = 3`. -/
theorem image_ofDims_white_witness :
    (Image.ofDims 2 3).image.length = 2 * 3 ∧
      (Image.ofDims 2 3).image = List.replicate (2 * 3) Pixel.white :=
  image_ofDims_white 2 3 (by decide)

/-- C10: `Image::size()` returns `width * height` reduced modulo `2 ^ 32`
(32-bit unsigned arithmetic), the constructor allocates a buffer of
`(height * width) mod 2 ^ 32` pixels, and when the mathematical product
reaches `2 ^ 32` the buffer is strictly smaller than that product. -/
theorem image_size_mod_u32 (h w : Nat) :
    (Image.ofDims h w).size = w * h % U32 ∧
      (Image.ofDims h w).image.length = h * w % U32 ∧
      (U32 ≤ h * w → (Image.ofDims h w).image.length ≠ h * w) := by
  refine ⟨rfl, by simp [Image.ofDims], ?_⟩
  intro hge
  simp only [Image.ofDims, List.length_replicate]
  have hlt : h * w % U32 < U32 := Nat.mod_lt _ (by decide)
  omega

/-- Witness for C10 at `height = 65537`, `width = 65536`: the mathematical
product is `2 ^ 32 + 2 ^ 16`, yet only `65536` pixels are allocated. -/
theorem image_size_mod_u32_witness :
    (Image.ofDims 65537 65536).size = 65536 * 65537 % U32 ∧
      (Image.ofDims 65537 65536).image.length = 65537 * 65536 % U32 ∧
      (Image.ofDims 65537 65536).image.length ≠ 65537 * 65536 := by
  have h := image_size_mod_u32 65537 65536
  exact ⟨h.1, h.2.1, h.2.2 (by decide)⟩

/-- Helper: `std::vector::resize(n)` leaves the vector with exactly `n`
elements. -/
theorem vectorResize_length (l : List Pixel) (n : Nat) :
    (vectorResize l n).length = n := by
  simp [vectorResize]
  omega

/-- C4 (amended): after construction, after `resize`, and after a
successful `from_file`, the pixel-buffer length equals
`height * width` reduced modulo `2 ^ 32` — the product as computed by the
`std::uint32_t` arithmetic of the code, which agrees with the mathematical
product exactly when that product fits in 32 bits. -/
theorem image_buffer_length_invariant (h w : Nat) (img : Image)
    (env : DecodeEnv) (f : String) :
    (Image.ofDims h w).image.length =
        (Image.ofDims h w).height * (Image.ofDims h w).width % U32 ∧
      (img.resize h w).image.length =
        (img.resize h w).height * (img.resize h w).width % U32 ∧
      ∀ img2, Image.from_file env f = Except.ok img2 →
        img2.image.length = img2.height * img2.width % U32 := by
  refine ⟨by simp [Image.ofDims], ?_, ?_⟩
  · simpa [Image.resize] using vectorResize_length img.image (h * w % U32)
  · intro img2 him
    unfold Image.from_file at him
    split at him
    · cases him
    · split at him
      · cases him
      · rename_i imgWidth imgHeight data heq
        cases him
        simp [Image.ofDims, Image.size, Nat.mul_comm]

/-- C4 counterexample: at `height = 65537`, `width = 65536` the buffer
holds `(65537 * 65536) mod 2 ^ 32 = 65536` pixels, not the mathematical
product `height * width = 4295032832` the claim asserts. -/
theorem image_buffer_length_invariant_cex :
    (Image.ofDims 65537 65536).image.length ≠
      (Image.ofDims 65537 65536).height * (Image.ofDims 65537 65536).width := by
  simp only [Image.ofDims, List.length_replicate]
  decide

/-- Witness for C4 at construction `(2, 3)`, a resize of a `1 × 1` image to
`(2, 3)`, and a decode producing a `3 × 2` image. -/
theorem image_buffer_length_invariant_witness :
    (Image.ofDims 2 3).image.length =
        (Image.ofDims 2 3).height * (Image.ofDims 2 3).width % U32 ∧
      ((Image.ofDims 1 1).resize 2 3).image.length =
        ((Image.ofDims 1 1).resize 2 3).height *
          ((Image.ofDims 1 1).resize 2 3).width % U32 ∧
      (Image.mk 3 2 (List.replicate 6 Pixel.white) none).image.length =
        (Image.mk 3 2 (List.replicate 6 Pixel.white) none).height *
          (Image.mk 3 2 (List.replicate 6 Pixel.white) none).width % U32 := by
  have hthm := image_buffer_length_invariant 2 3 (Image.ofDims 1 1)
    ⟨fun _ => true, fun _ => some (2, 3, List.replicate 6 Pixel.white), ""⟩ "f"
  exact ⟨hthm.1, hthm.2.1,
    hthm.2.2 (Image.mk 3 2 (List.replicate 6 Pixel.white) none) (by rfl)⟩

/-- C5 counterexample: on the `65537 × 65536` image the coordinates
`(row, column) = (65536, 0)` are valid, the checked accessor succeeds, but
the mathematical linear index `column + row * width = 2 ^ 32` names no
pixel at all (the buffer is truncated to `65536` cells and the index is
computed in 32-bit arithmetic, wrapping to `0`). -/
theorem image_at_cex :
    65536 < (Image.ofDims 65537 65536).height ∧
      0 < (Image.ofDims 65537 65536).width ∧
      (Image.ofDims 65537 65536).at 65536 0 = Except.ok Pixel.white ∧
      (Image.ofDims 65537 65536).image[0 + 65536 * (Image.ofDims 65537 65536).width]? =
        none := by
  refine ⟨by decide, by decide, ?_, ?_⟩
  · unfold Image.at
    rw [if_neg (by decide), if_neg (by decide)]
    congr 1
  · apply List.getElem?_eq_none
    simp only [Image.ofDims, List.length_replicate]
    decide

/-- C5 (amended): `Image::at(row, column)` fails with the out-of-range
error precisely when `row ≥ height` or `column ≥ width`; on valid
coordinates it never fails and returns the buffer element at linear index
`(column + row * width) mod 2 ^ 32` — the index is computed in
`std::uint32_t` arithmetic — which is the pixel at the mathematical linear
index `column + row * width` whenever that index fits in 32 bits and lies
inside the buffer. -/
theorem image_at_spec (img : Image) (h w : Nat) :
    ((img.at h w).toOption = none ↔ (img.height ≤ h ∨ img.width ≤ w)) ∧
      (h < img.height → w < img.width →
        img.at h w =
          Except.ok (img.image.getD ((w + h * img.width) % U32) Pixel.white)) ∧
      (h < img.height → w < img.width →
        ∀ hlen : w + h * img.width < img.image.length, w + h * img.width < U32 →
          img.image[w + h * img.width]? =
              some (img.image.get ⟨w + h * img.width, hlen⟩) ∧
            img.at h w = Except.ok (img.image.get ⟨w + h * img.width, hlen⟩)) := by
  refine ⟨?_, ?_, ?_⟩
  · unfold Image.at
    by_cases h1 : img.height ≤ h
    · rw [if_pos h1]
      simp [Except.toOption, h1]
    · rw [if_neg h1]
      by_cases h2 : img.width ≤ w
      · rw [if_pos h2]
        simp [Except.toOption, h2]
      · rw [if_neg h2]
        simp [Except.toOption, h1, h2]
  · intro h1 h2
    unfold Image.at
    rw [if_neg (by omega), if_neg (by omega)]
  · intro h1 h2 h4 h3
    refine ⟨?_, ?_⟩
    · rw [List.getElem?_eq_getElem h4, List.get_eq_getElem]
    · unfold Image.at
      rw [if_neg (by omega), if_neg (by omega)]
      congr 1
      rw [Nat.mod_eq_of_lt h3, List.getD_eq_getElem _ _ h4, List.get_eq_getElem]

/-- Witness for C5 (amended) on a `2 × 3` image at `(row, column) = (1, 2)`. -/
theorem image_at_spec_witness :
    (((Image.ofDims 2 3).at 1 2).toOption = none ↔
        ((Image.ofDims 2 3).height ≤ 1 ∨ (Image.ofDims 2 3).width ≤ 2)) ∧
      (Image.ofDims 2 3).at 1 2 =
        Except.ok ((Image.ofDims 2 3).image.getD
          ((2 + 1 * (Image.ofDims 2 3).width) % U32) Pixel.white) ∧
      (Image.ofDims 2 3).image[2 + 1 * (Image.ofDims 2 3).width]? =
          some ((Image.ofDims 2 3).image.get
            ⟨2 + 1 * (Image.ofDims 2 3).width, by decide⟩) ∧
        (Image.ofDims 2 3).at 1 2 =
          Except.ok ((Image.ofDims 2 3).image.get
            ⟨2 + 1 * (Image.ofDims 2 3).width, by decide⟩) :=
  ⟨(image_at_spec (Image.ofDims 2 3) 1 2).1,
    (image_at_spec (Image.ofDims 2 3) 1 2).2.1 (by decide) (by decide),
    (image_at_spec (Image.ofDims 2 3) 1 2).2.2 (by decide) (by decide) (by decide)
      (by decide)⟩

/-- C3 counterexample: growing a `1 × 1` image to `1 × 2` leaves the newly
appended cell (linear index 1, past the old buffer of length 1) equal to
opaque white — `std::vector::resize` value-initialises the new slots with
the `Pixel()` default constructor, which sets `(255, 255, 255, 255)` — so
the new cells are not of uninitialized/unspecified content. -/
theorem image_resize_white_cex :
    (Image.ofDims 1 1).image.length = 1 ∧
      ((Image.ofDims 1 1).resize 1 2).image[1]? = some Pixel.white := by
  decide

/-- C3 (amended): a growing `resize` appends the new cells at the end of
the underlying storage — not at logically new row/column positions — and
those cells are default-constructed `Pixel()` values, i.e. opaque white;
pixels at surviving linear indices are unchanged (no move or
reinterpretation to new coordinates). -/
theorem image_resize_spec (img : Image) (h w : Nat) :
    ((img.resize h w).image.length = h * w % U32) ∧
      (∀ i, i < h * w % U32 → i < img.image.length →
        (img.resize h w).image[i]? = img.image[i]?) ∧
      (img.image.length ≤ h * w % U32 →
        (img.resize h w).image =
          img.image ++ List.replicate (h * w % U32 - img.image.length) Pixel.white) := by
  refine ⟨?_, ?_, ?_⟩
  · simpa [Image.resize] using vectorResize_length img.image (h * w % U32)
  · intro i hi hlen
    simp only [Image.resize, vectorResize]
    rw [List.getElem?_append_left (by simp [List.length_take]; omega),
      List.getElem?_take]
    rw [if_pos hi]
  · intro hle
    simp only [Image.resize, vectorResize]
    rw [List.take_of_length_le hle]

/-- Witness for C3 (amended): growing a `2 × 2` image to `3 × 2`. -/
theorem image_resize_spec_witness :
    (((Image.ofDims 2 2).resize 3 2).image.length = 3 * 2 % U32) ∧
      ((Image.ofDims 2 2).resize 3 2).image[1]? = (Image.ofDims 2 2).image[1]? ∧
      ((Image.ofDims 2 2).resize 3 2).image =
        (Image.ofDims 2 2).image ++
          List.replicate (3 * 2 % U32 - (Image.ofDims 2 2).image.length) Pixel.white :=
  ⟨(image_resize_spec (Image.ofDims 2 2) 3 2).1,
    (image_resize_spec (Image.ofDims 2 2) 3 2).2.1 1 (by decide) (by decide),
    (image_resize_spec (Image.ofDims 2 2) 3 2).2.2 (by decide)⟩

/-- C6: decoding a nonexistent path fails with the not-found error, and the
result is the same for every codec behaviour (the codec is not consulted);
decoding an existing file the codec rejects fails with the decode error
carrying the codec's `stbi_failure_reason` diagnostic. -/
theorem from_file_error_spec (pe : String → Bool)
    (ld ld' : String → Option (Nat × Nat × List Pixel)) (r r' : String)
    (fname : String) :
    (pe fname = false →
        Image.from_file ⟨pe, ld, r⟩ fname =
            Except.error ("ImApp::Image::from_file: File with name \"" ++ fname ++
              "\" does not exist.\n") ∧
          Image.from_file ⟨pe, ld, r⟩ fname = Image.from_file ⟨pe, ld', r'⟩ fname) ∧
      (pe fname = true → ld fname = none →
        Image.from_file ⟨pe, ld, r⟩ fname =
          Except.error ("ImApp::Image::from_file: stbi_load failure.\nstbi_failure_reason: "
            ++ r ++ "\n")) := by
  constructor
  · intro hpe
    constructor
    · simp [Image.from_file, hpe]
    · simp [Image.from_file, hpe]
  · intro hpe hld
    simp [Image.from_file, hpe, hld]

/-- Witness for C6: a filesystem with no files yields the not-found error
independently of the codec, and an existing file the codec rejects yields
the decode error carrying the diagnostic. -/
theorem from_file_error_spec_witness :
    (Image.from_file ⟨fun _ => false, fun _ => none, "bad data"⟩ "f" =
          Except.error ("ImApp::Image::from_file: File with name \"" ++ "f" ++
            "\" does not exist.\n") ∧
        Image.from_file ⟨fun _ => false, fun _ => none, "bad data"⟩ "f" =
          Image.from_file ⟨fun _ => false, fun _ => some (1, 1, [Pixel.white]), "other"⟩
            "f") ∧
      Image.from_file ⟨fun _ => true, fun _ => none, "bad data"⟩ "f" =
        Except.error ("ImApp::Image::from_file: stbi_load failure.\nstbi_failure_reason: "
          ++ "bad data" ++ "\n") :=
  ⟨(from_file_error_spec (fun _ => false) (fun _ => none)
      (fun _ => some (1, 1, [Pixel.white])) "bad data" "other" "f").1 rfl,
    (from_file_error_spec (fun _ => true) (fun _ => none) (fun _ => none)
      "bad data" "bad data" "f").2 rfl rfl⟩

/-- C1: `send_to_gpu` is an idempotent, monotonic transition on the GPU
handle: from an absent handle it allocates exactly one fresh texture
object, uploads the full buffer into it, and stores its id; from a present
handle `t` it changes neither the image (in particular the handle value
returned by `ogl_texture_id()`) nor the set of allocated textures, and
merely re-uploads the full buffer into texture `t`. -/
theorem image_send_to_gpu_spec (img : Image) (gl : GLState) :
    (img.ogl_texture_id = none →
        (img.send_to_gpu gl).1.ogl_texture_id = some gl.nextId ∧
          (img.send_to_gpu gl).2.textures = gl.nextId :: gl.textures ∧
          (img.send_to_gpu gl).2.uploads = (gl.nextId, img.image) :: gl.uploads) ∧
      ∀ t, img.ogl_texture_id = some t →
        (img.send_to_gpu gl).1 = img ∧
          (img.send_to_gpu gl).2.textures = gl.textures ∧
          (img.send_to_gpu gl).2.nextId = gl.nextId ∧
          (img.send_to_gpu gl).2.uploads = (t, img.image) :: gl.uploads := by
  constructor
  · intro habs
    simp [Image.send_to_gpu, habs]
  · intro t ht
    simp [Image.send_to_gpu, ht]

/-- Witness for C1: a first upload of a fresh `1 × 1` image allocates
texture 1, and a second upload (handle now 1) re-uploads without
allocating. -/
theorem image_send_to_gpu_spec_witness :
    (((Image.ofDims 1 1).send_to_gpu ⟨1, [], []⟩).1.ogl_texture_id = some 1 ∧
        ((Image.ofDims 1 1).send_to_gpu ⟨1, [], []⟩).2.textures = [1] ∧
        ((Image.ofDims 1 1).send_to_gpu ⟨1, [], []⟩).2.uploads =
          [(1, (Image.ofDims 1 1).image)]) ∧
      ((Image.mk 1 1 [Pixel.white] (some 1)).send_to_gpu ⟨2, [1], []⟩).1 =
          Image.mk 1 1 [Pixel.white] (some 1) ∧
        ((Image.mk 1 1 [Pixel.white] (some 1)).send_to_gpu ⟨2, [1], []⟩).2.textures =
          [1] ∧
        ((Image.mk 1 1 [Pixel.white] (some 1)).send_to_gpu ⟨2, [1], []⟩).2.nextId = 2 ∧
        ((Image.mk 1 1 [Pixel.white] (some 1)).send_to_gpu ⟨2, [1], []⟩).2.uploads =
          [(1, [Pixel.white])] :=
  ⟨(image_send_to_gpu_spec (Image.ofDims 1 1) ⟨1, [], []⟩).1 rfl,
    (image_send_to_gpu_spec (Image.mk 1 1 [Pixel.white] (some 1)) ⟨2, [1], []⟩).2 1 rfl⟩

/-- C2: `delete_from_gpu` deallocates the texture and clears the handle
when one exists, and is a no-op that does not fail when none exists — in
particular on a freshly constructed, never-uploaded image; the destructor
`~Image()` performs exactly this release, so after destroying an image
whose texture id occurred once on the GPU that texture object is gone. -/
theorem image_delete_from_gpu_spec (img : Image) (gl : GLState) :
    (img.ogl_texture_id = none → img.delete_from_gpu gl = (img, gl)) ∧
      (∀ t, img.ogl_texture_id = some t →
        (img.delete_from_gpu gl).1.ogl_texture_id = none ∧
          (img.delete_from_gpu gl).2.textures = gl.textures.erase t ∧
          (List.count t gl.textures ≤ 1 → t ∉ (Image.destroy img gl).textures)) ∧
      Image.destroy img gl = (img.delete_from_gpu gl).2 ∧
      ∀ h w, (Image.ofDims h w).delete_from_gpu gl = (Image.ofDims h w, gl) := by
  refine ⟨?_, ?_, rfl, ?_⟩
  · intro habs
    simp [Image.delete_from_gpu, habs]
  · intro t ht
    refine ⟨by simp [Image.delete_from_gpu, ht], by simp [Image.delete_from_gpu, ht], ?_⟩
    intro hcount
    have : List.count t (Image.destroy img gl).textures = 0 := by
      simp only [Image.destroy, Image.delete_from_gpu, ht]
      rw [List.count_erase_self]
      omega
    exact List.count_eq_zero.mp this
  · intro h w
    simp [Image.delete_from_gpu, Image.ofDims]

/-- Witness for C2: releasing a never-uploaded `1 × 1` image is a no-op,
and destroying an image holding texture 3 removes texture 3 from the
GPU. -/
theorem image_delete_from_gpu_spec_witness :
    (Image.ofDims 1 1).delete_from_gpu ⟨5, [3], []⟩ = (Image.ofDims 1 1, ⟨5, [3], []⟩) ∧
      ((Image.mk 1 1 [Pixel.white] (some 3)).delete_from_gpu
          ⟨5, [3], []⟩).1.ogl_texture_id = none ∧
      ((Image.mk 1 1 [Pixel.white] (some 3)).delete_from_gpu ⟨5, [3], []⟩).2.textures =
        List.erase [3] 3 ∧
      (3 : Nat) ∉ (Image.destroy (Image.mk 1 1 [Pixel.white] (some 3))
        ⟨5, [3], []⟩).textures ∧
      Image.destroy (Image.mk 1 1 [Pixel.white] (some 3)) ⟨5, [3], []⟩ =
        ((Image.mk 1 1 [Pixel.white] (some 3)).delete_from_gpu ⟨5, [3], []⟩).2 := by
  have hpresent := (image_delete_from_gpu_spec (Image.mk 1 1 [Pixel.white] (some 3))
    ⟨5, [3], []⟩).2.1 3 rfl
  exact ⟨(image_delete_from_gpu_spec (Image.ofDims 1 1) ⟨5, [3], []⟩).1 rfl,
    hpresent.1, hpresent.2.1, hpresent.2.2 (by decide),
    (image_delete_from_gpu_spec (Image.mk 1 1 [Pixel.white] (some 3)) ⟨5, [3], []⟩).2.2.1⟩

/-- C7: `push_layer` appends the layer at the end of the stack, then
invokes its `on_push` hook, and only afterwards binds the layer's `app()`
back-reference: the hook observes the back-reference still unset (a
freshly constructed `Layer` has `app_ == nullptr`), while the final stack
carries the layer with the back-reference bound to the owning `App`. -/
theorem push_layer_spec (a : AppState) (l : Layer) (hfresh : l.app = none) :
    (a.push_layer l).layers = a.layers ++ [{ l with app := some a.id }] ∧
      (a.push_layer l).trace = a.trace ++ [Event.onPush l.id none] := by
  constructor <;>
    simp [AppState.push_layer, hfresh, List.getLastD_concat, List.dropLast_concat]

/-- Witness for C7: pushing the fresh layer 5 onto the empty app 3. -/
theorem push_layer_spec_witness :
    ((AppState.mk 3 [] []).push_layer (Layer.mk 5 none)).layers =
        [Layer.mk 5 (some 3)] ∧
      ((AppState.mk 3 [] []).push_layer (Layer.mk 5 none)).trace =
        [Event.onPush 5 none] :=
  push_layer_spec (AppState.mk 3 [] []) (Layer.mk 5 none) rfl

/-- C8: with layers `[A, B]` in push order, one iteration of the `run()`
loop renders A strictly before B; destruction delivers `on_kill` to A
before B — push order, not reverse — and both land before the GUI contexts
are shut down and the window destroyed.  Every iteration of `run()` is
exactly one such `frame`. -/
theorem layer_dispatch_order (a : AppState) (A B : Layer) (hl : a.layers = [A, B]) :
    a.frame.trace =
        a.trace ++ [Event.pollEvents, Event.newFrame, Event.render A.id,
          Event.render B.id, Event.renderSubmit, Event.swapBuffers] ∧
      a.destroy.trace =
        a.trace ++ [Event.onKill A.id, Event.onKill B.id,
          Event.shutdownContexts, Event.destroyWindow] ∧
      ∀ n, a.run (n + 1) = a.frame.run n := by
  refine ⟨?_, ?_, fun n => rfl⟩
  · simp [AppState.frame, hl]
  · simp [AppState.destroy, hl]

/-- Witness for C8: app 1 holding layers 4 then 5. -/
theorem layer_dispatch_order_witness :
    (AppState.mk 1 [Layer.mk 4 (some 1), Layer.mk 5 (some 1)] []).frame.trace =
        [Event.pollEvents, Event.newFrame, Event.render 4, Event.render 5,
          Event.renderSubmit, Event.swapBuffers] ∧
      (AppState.mk 1 [Layer.mk 4 (some 1), Layer.mk 5 (some 1)] []).destroy.trace =
        [Event.onKill 4, Event.onKill 5, Event.shutdownContexts,
          Event.destroyWindow] ∧
      (AppState.mk 1 [Layer.mk 4 (some 1), Layer.mk 5 (some 1)] []).run (0 + 1) =
        (AppState.mk 1 [Layer.mk 4 (some 1), Layer.mk 5 (some 1)] []).frame.run 0 :=
  ⟨(layer_dispatch_order (AppState.mk 1 [Layer.mk 4 (some 1), Layer.mk 5 (some 1)] [])
      (Layer.mk 4 (some 1)) (Layer.mk 5 (some 1)) rfl).1,
    (layer_dispatch_order (AppState.mk 1 [Layer.mk 4 (some 1), Layer.mk 5 (some 1)] [])
      (Layer.mk 4 (some 1)) (Layer.mk 5 (some 1)) rfl).2.1,
    (layer_dispatch_order (AppState.mk 1 [Layer.mk 4 (some 1), Layer.mk 5 (some 1)] [])
      (Layer.mk 4 (some 1)) (Layer.mk 5 (some 1)) rfl).2.2 0⟩

end ImApp
